import Mathlib

/-!
Verification of the tyni-wispr recording/transcription pipeline.

The development shallowly embeds the Python sources under src/tyni_wispr/:
pure text processing is translated to Lean functions, the external
collaborators (speech model, HTTP backends, grammar tool, file system) are
abstracted into explicit outcome parameters, and the hotkey-driven state
machine becomes a step function on an application state, emitting a trace of
the observable calls it makes.
-/

namespace TyniWispr

/-! ## Text post-processing (src/tyni_wispr/utils.py) -/

/-- Python str.strip: remove whitespace from both ends of the string. -/
def pyStrip (s : String) : String :=
  String.mk (((s.toList.dropWhile Char.isWhitespace).reverse.dropWhile
    Char.isWhitespace).reverse)

/-- Word character as matched by the regex word-boundary assertion used in the
corrections substitution (utils.py line 114), restricted to ASCII: letters,
digits and underscore. -/
def isWordChar (c : Char) : Bool := c.isAlphanum || c == '_'

/-- Wordness of an optional character; the edge of the string counts as
non-word, as in the regex semantics of a word boundary. -/
def wchar : Option Char → Bool
  | some c => isWordChar c
  | none => false

/-- The regex pattern built in utils.py line 114 is word-boundary, escaped
literal, word-boundary. This is its match condition at the head of t, where
prev is the character immediately before t in the subject. -/
def matchCond (k : List Char) (prev : Option Char) (t : List Char) : Bool :=
  !k.isEmpty && k.isPrefixOf t && (wchar prev != wchar k.head?)
    && (wchar k.getLast? != wchar (t.drop k.length).head?)

/-- Left-to-right scan of re.sub with the word-bounded literal pattern: at
each position, if the literal matches between word boundaries, emit the
replacement and continue after the matched text; otherwise keep the character.
The fuel argument only bounds the recursion; it always stays at least the
remaining length, so it never truncates on the intended calls. An empty
literal never matches here (keys of the corrections table are non-empty in
every use this development reasons about). -/
def subAux (k v : List Char) : Nat → Option Char → List Char → List Char
  | 0, _, t => t
  | _ + 1, _, [] => []
  | fuel + 1, prev, c :: rest =>
    if matchCond k prev (c :: rest) then
      v ++ subAux k v fuel k.getLast? (rest.drop (k.length - 1))
    else
      c :: subAux k v fuel (some c) rest

/-- The single re.sub call of utils.py line 114: replace the whole-word
occurrences of k in text by v. -/
def reSubWholeWord (k v text : String) : String :=
  String.mk (subAux k.toList v.toList text.toList.length none text.toList)

/-- The character just before position i of t, none at the start of the
string. -/
def prevAt (t : List Char) (i : Nat) : Option Char :=
  if i = 0 then none else (t.drop (i - 1)).head?

/-- Whether the word-bounded literal k matches in t at position i. -/
def matchAt (k t : List Char) (i : Nat) : Bool :=
  matchCond k (prevAt t i) (t.drop i)

/-- The corrections loop of post_process_transcription (utils.py lines
112-114): each table entry is applied as a whole-word substitution, in table
order. -/
def applyCorrections (tbl : List (String × String)) (text : String) : String :=
  tbl.foldl (fun t kv => reSubWholeWord kv.1 kv.2 t) text

/-- Python text[0].upper() ++ text[1:] (utils.py line 127); none models the
IndexError raised when text is empty at that point. -/
def capFirst (s : String) : Option String :=
  match s.toList with
  | [] => none
  | c :: cs => some (String.mk (c.toUpper :: cs))

/-- Models the LanguageTool pass of utils.py lines 117-124: some g is a
successful correction to g, none is any failure of the tool, which the source
swallows, keeping the post-substitution text. -/
def noGrammar : String → Option String := fun _ => none

/-- post_process_transcription (utils.py lines 91-129). The corrections table
stands for the dictionary returned by load_corrections and grammar for the
LanguageTool collaborator. The none result models the IndexError the source
raises when the text is empty after the substitutions and the grammar pass. -/
def post_process_transcription (tbl : List (String × String))
    (grammar : String → Option String) (text : String) : Option String :=
  let t := pyStrip text
  if t = "" then some ""
  else
    let t1 := applyCorrections tbl t
    let t2 := match grammar t1 with
      | some g => g
      | none => t1
    capFirst t2

/-- What the source can observe about the corrections file (utils.py lines
68-89): absent, or present and parsed as a dictionary, or present with a valid
non-dictionary JSON value, or present but json.load raises JSONDecodeError,
or opening, reading or creating the file raises some other exception. -/
inductive CorrectionsFile
  | absent
  | dict (d : List (String × String))
  | nonDict
  | invalidJson
  | ioError
deriving DecidableEq, Repr

/-- The default corrections dictionary of utils.py lines 64-66. -/
def default_corrections : List (String × String) := [("  ", " ")]

/-- load_corrections (utils.py lines 54-89): the returned dictionary, plus
whether the default file was created (the absent branch writes it). -/
def load_corrections : CorrectionsFile → List (String × String) × Bool
  | .absent => (default_corrections, true)
  | .dict d => (d, false)
  | .nonDict => (default_corrections, false)
  | .invalidJson => (default_corrections, false)
  | .ioError => (default_corrections, false)

/-! ## LLM enhancement (src/tyni_wispr/enhancement.py) -/

/-- Outcome of one backend request for a given prompt. For the Ollama backend,
ok r is an HTTP 200 answer whose JSON body carries the string r in its
response field; for the Azure backend, ok r is a completed chat call whose
message content is the string r. fail covers everything else: connection
errors, timeouts, non-200 statuses, malformed bodies, missing or null
content, and any other exception inside the request, all of which the source
handles identically to one another. -/
inductive CallOutcome
  | ok (resp : String)
  | fail
deriving DecidableEq, Repr

/-- The fields of the LLMEnhancer class (enhancement.py). azure_client records
the truthiness of the azure_client attribute, which holds a client object or
None. -/
structure LLMEnhancer where
  model : Option String
  base_url : Option String
  ollama_available : Bool
  azure_client : Bool
  azure_available : Bool
deriving DecidableEq, Repr

/-- LLMEnhancer.for_ollama (enhancement.py lines 10-30). -/
def LLMEnhancer.for_ollama (model base_url : String) : LLMEnhancer :=
  { model := some model
    base_url := some base_url
    ollama_available := false
    azure_client := false
    azure_available := false }

/-- LLMEnhancer.for_azure_openai (enhancement.py lines 32-67), where init_ok
records whether the AzureOpenAIClient constructor succeeded; on failure the
exception is caught and both azure fields are cleared. -/
def LLMEnhancer.for_azure_openai (init_ok : Bool) : LLMEnhancer :=
  { model := none
    base_url := none
    ollama_available := false
    azure_client := init_ok
    azure_available := init_ok }

/-- LLMEnhancer.is_ollama_running (enhancement.py lines 69-102), given the
probe outcome of the list-models endpoint: some models is an HTTP 200 answer
carrying those model names, none is any other status or exception. Returns
the boolean result together with the instance, whose ollama_available field
the method mutates. -/
def LLMEnhancer.is_ollama_running (e : LLMEnhancer)
    (probe : Option (List String)) : Bool × LLMEnhancer :=
  let found := match probe, e.model with
    | some models, some m => m ∈ models
    | _, _ => false
  (found, { e with ollama_available := found })

/-- LLMEnhancer.enhance_azure_openai (enhancement.py lines 112-143): with the
backend unavailable the input is returned; otherwise the call either fails
(returning the input) or yields content that is accepted only when non-empty
and of length strictly below three times the input length, in which case its
stripped form is returned. -/
def LLMEnhancer.enhance_azure_openai (e : LLMEnhancer) (call : CallOutcome)
    (text : String) : String :=
  if e.azure_available && e.azure_client then
    match call with
    | .ok r => if r ≠ "" ∧ r.length < text.length * 3 then pyStrip r else text
    | .fail => text
  else text

/-- LLMEnhancer.enhance_ollama (enhancement.py lines 145-189): with the
backend unavailable the input is returned; otherwise the response field is
stripped first and accepted only when non-empty and of length strictly below
three times the input length; every failure returns the input. -/
def LLMEnhancer.enhance_ollama (e : LLMEnhancer) (call : CallOutcome)
    (text : String) : String :=
  if e.ollama_available then
    match call with
    | .ok r =>
      let er := pyStrip r
      if er ≠ "" ∧ er.length < text.length * 3 then er else text
    | .fail => text
  else text

/-- LLMEnhancer.enhance (enhancement.py lines 104-110): dispatch to the Azure
backend when available, else to the Ollama backend when available, else raise
RuntimeError, modelled as the error case. -/
def LLMEnhancer.enhance (e : LLMEnhancer) (azureCall ollamaCall : CallOutcome)
    (text : String) : Except String String :=
  if e.azure_available && e.azure_client then
    .ok (e.enhance_azure_openai azureCall text)
  else if e.ollama_available then
    .ok (e.enhance_ollama ollamaCall text)
  else
    .error "RuntimeError: No LLM client available for enhancement."

/-! ## Argument parsing (src/tyni_wispr/config.py) and enhancer loading
(src/tyni_wispr/models.py) -/

/-- A value stored in an argparse Namespace attribute. -/
inductive AttrValue
  | str (s : String)
  | bool (b : Bool)
deriving DecidableEq, Repr

/-- An argparse Namespace: attribute names mapped to values. -/
def PyNamespace : Type := List (String × AttrValue)

/-- Python attribute read on a Namespace; a missing attribute raises
AttributeError, modelled as the error case. -/
def getattrStr (ns : PyNamespace) (name : String) : Except String String :=
  match List.lookup name ns with
  | some (.str s) => .ok s
  | some (.bool _) => .error ("TypeError: attribute " ++ name ++ " is not a string")
  | none => .error ("AttributeError: Namespace object has no attribute " ++ name)

/-- Python boolean attribute read on a Namespace. -/
def getattrBool (ns : PyNamespace) (name : String) : Except String Bool :=
  match List.lookup name ns with
  | some (.bool b) => .ok b
  | some (.str _) => .error ("TypeError: attribute " ++ name ++ " is not a bool")
  | none => .error ("AttributeError: Namespace object has no attribute " ++ name)

/-- parse_arguments (config.py lines 15-93): the Namespace it returns, with
one attribute per add_argument call, named after the long option with dashes
replaced by underscores. The help attribute is false on every returned
Namespace, since a true help flag exits the process before returning. The
mutually exclusive group forbids passing both enhancement flags. -/
def parse_arguments (model : String) (log_performance help silent : Bool)
    (llm_enhance_ollama : Bool) (ollama_model ollama_url : String)
    (llm_enhance_azure_openai : Bool) (corrections_config : String) :
    PyNamespace :=
  [ ("model", .str model)
  , ("log_performance", .bool log_performance)
  , ("help", .bool help)
  , ("silent", .bool silent)
  , ("llm_enhance_ollama", .bool llm_enhance_ollama)
  , ("ollama_model", .str ollama_model)
  , ("ollama_url", .str ollama_url)
  , ("llm_enhance_azure_openai", .bool llm_enhance_azure_openai)
  , ("corrections_config", .str corrections_config) ]

/-- load_enhancer_llm (models.py lines 40-80), reading the argument attributes
the way the source spells them. probe is the outcome of the list-models
endpoint and azure_init_ok whether the AzureOpenAIClient constructor would
succeed. An uncaught exception inside the function is the error case. -/
def load_enhancer_llm (ns : PyNamespace) (probe : Option (List String))
    (azure_init_ok : Bool) : Except String (Option LLMEnhancer) := do
  let ollFlag ← getattrBool ns "llm_enhance_ollama"
  let enhancer1 : Option LLMEnhancer ←
    if ollFlag then do
      let m ← getattrStr ns "ollama_model"
      let u ← getattrStr ns "ollama_base_url"
      let e0 := LLMEnhancer.for_ollama m u
      let (running, e1) := e0.is_ollama_running probe
      pure (if running then some e1 else none)
    else pure none
  match enhancer1 with
  | some e => pure (some e)
  | none => do
    let azFlag ← getattrBool ns "llm_enhance_azure_openai"
    if azFlag then
      let e := LLMEnhancer.for_azure_openai azure_init_ok
      pure (if e.azure_available then some e else none)
    else pure none

/-! ## Audio capture (src/tyni_wispr/audio.py) -/

/-- The AudioRecorder fields relevant to buffering: the buffer is a list of
int16 sample chunks appended by the stream callback while recording. -/
structure AudioRecorder where
  samplerate : Nat
  channels : Nat
  audio_buffer : List (List Int)
  recording : Bool
deriving DecidableEq, Repr

/-- AudioRecorder.start_recording (audio.py lines 32-35): clear the buffer and
accept samples. -/
def AudioRecorder.start_recording (r : AudioRecorder) : AudioRecorder :=
  { r with audio_buffer := [], recording := true }

/-- AudioRecorder.stop_recording (audio.py lines 37-40): stop accepting
samples; the buffer is left in place. -/
def AudioRecorder.stop_recording (r : AudioRecorder) : AudioRecorder :=
  { r with recording := false }

/-- AudioRecorder._audio_callback (audio.py lines 42-45): append the chunk
only while recording. -/
def AudioRecorder.audio_callback (r : AudioRecorder) (chunk : List Int) :
    AudioRecorder :=
  if r.recording then { r with audio_buffer := r.audio_buffer ++ [chunk] } else r

/-- AudioRecorder.process_audio_buffer (audio.py lines 47-63): none for an
empty buffer, otherwise the concatenated samples divided by 32768 together
with the duration in seconds. -/
def AudioRecorder.process_audio_buffer (r : AudioRecorder) :
    Option (List ℚ × ℚ) :=
  match r.audio_buffer with
  | [] => none
  | _ =>
    let mono := (r.audio_buffer.flatten).map (fun s => (s : ℚ) / 32768)
    some (mono, (mono.length : ℚ) / (r.samplerate : ℚ))

/-! ## Overlay (src/tyni_wispr/ui.py) -/

/-- The RecordingOverlay fields driving its behaviour: whether the indicator
thread is up and which mode it was started with. -/
structure Overlay where
  is_showing : Bool
  current_mode : Option String
deriving DecidableEq, Repr

/-- RecordingOverlay.show (ui.py lines 17-31): when the overlay is already
showing, return immediately without touching the mode; otherwise record the
mode and start displaying. -/
def Overlay.show (o : Overlay) (mode : String) : Overlay :=
  if o.is_showing then o else { is_showing := true, current_mode := some mode }

/-- Whether a show call actually starts displaying the given mode, used to
trace the indicator the user sees. -/
def Overlay.showTakesEffect (o : Overlay) : Bool := !o.is_showing

/-- RecordingOverlay.hide (ui.py lines 33-40): stop displaying; the recorded
mode is not cleared. -/
def Overlay.hide (o : Overlay) : Overlay := { o with is_showing := false }

/-! ## The recording state machine (src/tyni_wispr/main.py)

The keyboard library delivers key events to the handlers one at a time, and
the handlers additionally serialize themselves through self.state_lock, so
the machine is embedded as a sequential step function: each event is
processed to completion, including the synchronous pipeline, before the next
one is examined. Each step returns the new application state together with
the trace of the externally observable calls it made; an exception escaping a
handler is recorded as an uncaught action and leaves the state as the handler
left it, exactly as the source, which installs no handler around the
pipeline, would. -/

/-- RecordingState (main.py lines 15-19). -/
inductive RecordingState
  | idle
  | recording
  | transcribing
deriving DecidableEq, Repr

/-- Observable calls made while processing one key event. setState records
each assignment to self.state; showCall records each overlay.show invocation
and overlayDisplays the mode the overlay actually starts to display when such
a call takes effect; typeText records pyautogui.write. -/
inductive Action
  | setState (s : RecordingState)
  | startRec
  | stopRec
  | showCall (mode : String)
  | overlayDisplays (mode : String)
  | overlayHide
  | transcribeCall
  | enhanceCall
  | postProcessCall
  | logPerf
  | typeText (s : String)
  | uncaught
deriving DecidableEq, Repr

/-- Outcome of one call to the speech model (transcription.py line 16): the
segment texts, or a device out-of-memory error, or any other exception. Both
error cases are re-raised by transcribe_audio after printing. -/
inductive TranscribeOutcome
  | ok (segments : List String)
  | oom
  | err
deriving DecidableEq, Repr

/-- transcribe_audio (transcription.py lines 4-28): join the segment texts
with spaces and strip; both exception cases propagate to the caller. -/
def transcribe_audio (t : TranscribeOutcome) : Except String String :=
  match t with
  | .ok segs => .ok (pyStrip (String.intercalate " " segs))
  | .oom => .error "torch.cuda.OutOfMemoryError"
  | .err => .error "Exception"

/-- The external collaborators and configuration fixed for a run of the
application: the speech model behaviour on given samples, the enhancer
instance loaded at startup (none when enhancement is disabled), the backend
response to a given prompt, the corrections table the configured file parses
to, the grammar tool behaviour, and the log-performance flag. -/
structure Env where
  transcriber : List ℚ → TranscribeOutcome
  enhancer : Option LLMEnhancer
  azureCall : String → CallOutcome
  ollamaCall : String → CallOutcome
  corrections : List (String × String)
  grammar : String → Option String
  log_performance : Bool

/-- The mutable state of the TyniWispr application object. -/
structure App where
  state : RecordingState
  recorder : AudioRecorder
  overlay : Overlay
deriving DecidableEq, Repr

/-- The application state right after TyniWispr.__init__ (main.py lines
24-36). -/
def init_app : App :=
  { state := .idle
    recorder :=
      { samplerate := 16000, channels := 1, audio_buffer := [], recording := false }
    overlay := { is_showing := false, current_mode := none } }

/-- Trace of one overlay.show call: the call itself, plus the mode it starts
displaying when the call takes effect. -/
def showTrace (o : Overlay) (mode : String) : List Action :=
  if o.showTakesEffect then [.showCall mode, .overlayDisplays mode]
  else [.showCall mode]

/-- The tail of _process_transcription after a successful enhancement stage
(main.py lines 127-151): post-process, optionally log, hide the overlay, then
either return to idle directly on empty text or type the text first. A none
from post-processing is the IndexError propagating out of the handler. -/
def pipeline_post_enhance (env : Env) (a : App) (text : String) :
    App × List Action :=
  match post_process_transcription env.corrections env.grammar text with
  | none => (a, [.postProcessCall, .uncaught])
  | some t2 =>
    let logActs := if env.log_performance then [Action.logPerf] else []
    let a2 := { a with overlay := a.overlay.hide }
    if t2 = "" then
      ({ a2 with state := .idle },
        [.postProcessCall] ++ logActs ++ [.overlayHide, .setState .idle])
    else
      ({ a2 with state := .idle },
        [.postProcessCall] ++ logActs
          ++ [.overlayHide, .typeText (t2 ++ " "), .setState .idle])

/-- The middle of _process_transcription (main.py lines 110-125): early exit
on empty transcription text, then the optional enhancement stage, whose
RuntimeError, were the enhancer left without a backend, would propagate out
of the handler. -/
def pipeline_after_transcribe (env : Env) (a : App) (text : String) :
    App × List Action :=
  if text = "" then
    ({ a with overlay := a.overlay.hide, state := .idle },
      [.overlayHide, .setState .idle])
  else
    match env.enhancer with
    | none => pipeline_post_enhance env a text
    | some e =>
      match e.enhance (env.azureCall text) (env.ollamaCall text) text with
      | .error _ => (a, [.enhanceCall, .uncaught])
      | .ok t2 =>
        let (a2, acts2) := pipeline_post_enhance env a t2
        (a2, .enhanceCall :: acts2)

/-- _process_transcription (main.py lines 86-151): show the transcribing
overlay, process the buffer (early exit to idle when empty), transcribe (an
exception propagates out of the handler, leaving the state as it was), then
run the rest of the pipeline. -/
def process_transcription (env : Env) (a : App) : App × List Action :=
  let sacts := showTrace a.overlay "transcribing"
  let a1 := { a with overlay := a.overlay.show "transcribing" }
  match a1.recorder.process_audio_buffer with
  | none =>
    ({ a1 with overlay := a1.overlay.hide, state := .idle },
      sacts ++ [.overlayHide, .setState .idle])
  | some (mono, _dur) =>
    match transcribe_audio (env.transcriber mono) with
    | .error _ => (a1, sacts ++ [.transcribeCall, .uncaught])
    | .ok text =>
      let (a2, pacts) := pipeline_after_transcribe env a1 text
      (a2, sacts ++ [.transcribeCall] ++ pacts)

/-- _start_recording (main.py lines 57-64). -/
def start_recording_app (a : App) : App × List Action :=
  let a1 := { a with state := .recording, recorder := a.recorder.start_recording }
  let sacts := showTrace a1.overlay "recording"
  ({ a1 with overlay := a1.overlay.show "recording" },
    [.setState .recording, .startRec] ++ sacts)

/-- _stop_recording_and_transcribe (main.py lines 75-84). -/
def stop_recording_and_transcribe (env : Env) (a : App) : App × List Action :=
  let a1 := { a with state := .transcribing, recorder := a.recorder.stop_recording }
  let (a2, acts) := process_transcription env a1
  (a2, [.setState .transcribing, .stopRec] ++ acts)

/-- _cancel_recording (main.py lines 66-73). -/
def cancel_recording (a : App) : App × List Action :=
  let a1 : App :=
    { a with state := .idle, recorder := a.recorder.stop_recording, overlay := a.overlay.hide }
  (a1, [.setState .idle, .stopRec, .overlayHide])

/-- A key or stream event delivered to the application. -/
inductive Event
  | toggle
  | cancel
  | chunk (samples : List Int)
deriving DecidableEq, Repr

/-- One event processed to completion: _on_num_lock_press (main.py lines
43-49) for the toggle key, _on_escape_press (lines 51-55) for the cancel key,
and the stream callback for an audio chunk. -/
def step (env : Env) (a : App) : Event → App × List Action
  | .toggle =>
    match a.state with
    | .idle => start_recording_app a
    | .recording => stop_recording_and_transcribe env a
    | .transcribing => (a, [])
  | .cancel =>
    match a.state with
    | .recording => cancel_recording a
    | _ => (a, [])
  | .chunk samples => ({ a with recorder := a.recorder.audio_callback samples }, [])

/-- Process a list of events in order, concatenating the traces. -/
def run (env : Env) (a : App) : List Event → App × List Action
  | [] => (a, [])
  | e :: es =>
    let (a1, acts1) := step env a e
    let (a2, acts2) := run env a1 es
    (a2, acts1 ++ acts2)

/-! ## Demonstration environments used by the concrete runs -/

/-- A run whose speech model hears the word hi, with enhancement disabled,
no corrections entries, a failing grammar tool and no performance logging. -/
def envOk : Env :=
  { transcriber := fun _ => .ok ["hi"]
    enhancer := none
    azureCall := fun _ => .fail
    ollamaCall := fun _ => .fail
    corrections := []
    grammar := noGrammar
    log_performance := false }

/-- Same run, except the speech model raises a device out-of-memory error. -/
def envOomDemo : Env := { envOk with transcriber := fun _ => .oom }

/-- Same run, except the speech model raises some other exception. -/
def envErrDemo : Env := { envOk with transcriber := fun _ => .err }

/-! ## General lemmas -/

lemma toNat_ofNat_of_valid (n : Nat) (h : n.isValidChar) :
    (Char.ofNat n).toNat = n := by
  rw [Char.ofNat, dif_pos h]
  simp [Char.ofNatAux, Char.toNat, UInt32.toNat, BitVec.toNat_ofNatLt]

/-- Uppercasing a character twice is the same as uppercasing it once. -/
lemma char_toUpper_idem (c : Char) : c.toUpper.toUpper = c.toUpper := by
  unfold Char.toUpper
  by_cases h : c.toNat ≥ 97 ∧ c.toNat ≤ 122
  · rw [if_pos h]
    have hv : (Char.toNat c - 32).isValidChar := by
      left
      omega
    have ht : (Char.ofNat (Char.toNat c - 32)).toNat = Char.toNat c - 32 :=
      toNat_ofNat_of_valid _ hv
    rw [if_neg]
    rw [ht]
    omega
  · rw [if_neg h, if_neg h]

lemma mk_toList (s : String) : String.mk s.toList = s := by
  cases s
  rfl

lemma matchCond_nil (k : List Char) (prev : Option Char) :
    matchCond k prev [] = false := by
  cases k <;> simp [matchCond, List.isPrefixOf]

/-- A text in which the word-bounded literal matches nowhere is returned
unchanged by the substitution scan, from any starting position. -/
lemma subAux_eq_of_no_match (k v : List Char) (t0 : List Char)
    (h : ∀ i, matchCond k (prevAt t0 i) (t0.drop i) = false) :
    ∀ fuel i, subAux k v fuel (prevAt t0 i) (t0.drop i) = t0.drop i := by
  intro fuel
  induction fuel with
  | zero => intro i; rfl
  | succ n ih =>
    intro i
    cases hd : t0.drop i with
    | nil => rfl
    | cons c rest =>
      have hcond : matchCond k (prevAt t0 i) (c :: rest) = false := by
        have h2 := h i
        rw [hd] at h2
        exact h2
      have h1 : prevAt t0 (i + 1) = some c := by
        simp only [prevAt, Nat.add_sub_cancel, if_neg (Nat.succ_ne_zero i)]
        rw [hd]
        rfl
      have h2 : t0.drop (i + 1) = rest := by
        have hdd : t0.drop (i + 1) = (t0.drop i).drop 1 := by
          rw [List.drop_drop]
        rw [hdd, hd]
        rfl
      have ihx := ih (i + 1)
      rw [h1, h2] at ihx
      simp only [subAux, hcond]
      simp only [Bool.false_eq_true, if_false]
      rw [ihx]

/-- re.sub with the word-bounded literal leaves unchanged every text in which
the literal has no whole-word occurrence. -/
lemma reSubWholeWord_eq_of_no_match (k v text : String)
    (h : ∀ i, i < text.toList.length → matchAt k.toList text.toList i = false) :
    reSubWholeWord k v text = text := by
  have hall : ∀ i,
      matchCond k.toList (prevAt text.toList i) (text.toList.drop i) = false := by
    intro i
    by_cases hi : i < text.toList.length
    · have hx := h i hi
      rwa [matchAt] at hx
    · rw [List.drop_eq_nil_of_le (Nat.le_of_not_lt hi)]
      exact matchCond_nil _ _
  have hz := subAux_eq_of_no_match k.toList v.toList text.toList hall
    text.toList.length 0
  have h0 : prevAt text.toList 0 = none := rfl
  rw [h0, List.drop_zero] at hz
  unfold reSubWholeWord
  rw [hz, mk_toList]

/-- The two actions a show call can produce. -/
lemma mem_showTrace {a : Action} {o : Overlay} {m : String}
    (h : a ∈ showTrace o m) : a = .showCall m ∨ a = .overlayDisplays m := by
  unfold showTrace at h
  split at h <;> simp_all

lemma transcribe_not_mem_post (env : Env) (a0 : App) (t : String) :
    Action.transcribeCall ∉ (pipeline_post_enhance env a0 t).2 := by
  unfold pipeline_post_enhance
  split
  · simp
  · split <;> split <;> simp

lemma transcribe_not_mem_after (env : Env) (a0 : App) (t : String) :
    Action.transcribeCall ∉ (pipeline_after_transcribe env a0 t).2 := by
  unfold pipeline_after_transcribe
  split
  · simp
  · split
    · exact transcribe_not_mem_post env a0 t
    · split
      · simp
      · intro h
        rcases List.mem_cons.mp h with h1 | h1
        · exact absurd h1 (by simp)
        · exact transcribe_not_mem_post env a0 _ h1

lemma count_transcribe_showTrace (o : Overlay) (m : String) :
    (showTrace o m).count Action.transcribeCall = 0 :=
  List.count_eq_zero.mpr (fun hmem => by
    rcases mem_showTrace hmem with h | h <;> simp at h)

/-- The pipeline entered from one toggle press performs at most one
transcription call. -/
lemma count_transcribe_process (env : Env) (a : App) :
    ((process_transcription env a).2.count Action.transcribeCall) ≤ 1 := by
  unfold process_transcription
  dsimp only
  split
  · simp [List.count_append, count_transcribe_showTrace]
  · split
    · simp [List.count_append, count_transcribe_showTrace]
    · rename_i text heqok
      simp only [List.count_append, count_transcribe_showTrace]
      have hz := List.count_eq_zero.mpr (transcribe_not_mem_after env
        { a with overlay := a.overlay.show "transcribing" } text)
      simp [hz]

/-- Stopping the recorder does not change how its buffer is processed. -/
lemma process_audio_buffer_stop (r : AudioRecorder) :
    (r.stop_recording).process_audio_buffer = r.process_audio_buffer := rfl

/-- With the grammar collaborator absent or failing, post-processing is
stripping, then the substitutions, then capitalization. -/
lemma post_process_noGrammar (tbl : List (String × String)) (text : String) :
    post_process_transcription tbl noGrammar text
      = if pyStrip text = "" then some ""
        else capFirst (applyCorrections tbl (pyStrip text)) := rfl

/-! ## Demonstration inputs for the enhancement guard -/

/-- An enhancer on the Ollama path, made available the way the source does it:
built by for_ollama and probed by is_ollama_running against a server that
lists the target model. -/
def eOllamaDemo : LLMEnhancer :=
  ((LLMEnhancer.for_ollama "gemma3:12b" "http://localhost:11434").is_ollama_running
    (some ["gemma3:12b"])).2

/-- An enhancer on the Azure path whose client construction succeeded. -/
def eAzureDemo : LLMEnhancer := LLMEnhancer.for_azure_openai true

/-- A ten-character input text. -/
def t10 : String := "0123456789"

/-- A whitespace-free backend response of length 29. -/
def r29 : String := "abcdefghijklmnopqrstuvwxyz012"

/-- A whitespace-free backend response of length 30. -/
def r30 : String := "abcdefghijklmnopqrstuvwxyz0123"

/-! ## The claims -/

/-- Claim C10: load_corrections never raises and always returns a dictionary:
an absent file is created and the default mapping with the double-space entry
is returned, and a file with invalid JSON or a non-dictionary value also
yields that same default mapping; a parsed dictionary is returned as is. -/
theorem claimC10_load_corrections :
    load_corrections .absent = (default_corrections, true)
    ∧ (∀ d, load_corrections (.dict d) = (d, false))
    ∧ load_corrections .nonDict = (default_corrections, false)
    ∧ load_corrections .invalidJson = (default_corrections, false)
    ∧ load_corrections .ioError = (default_corrections, false)
    ∧ default_corrections = [("  ", " ")] :=
  ⟨rfl, fun _ => rfl, rfl, rfl, rfl, rfl⟩

/-- Concrete instance of claim C10 at a one-entry dictionary. -/
theorem claimC10_witness :
    load_corrections (.dict [("Christy", "Christie")])
      = ([("Christy", "Christie")], false) :=
  claimC10_load_corrections.2.1 [("Christy", "Christie")]

/-- Claim C5: running with the Ollama enhancement flag makes load_enhancer_llm
read the attribute ollama_base_url, which parse_arguments never defines (its
option is ollama-url, stored as ollama_url), so startup raises AttributeError
for every argument combination with that flag, instead of disabling
enhancement with a warning and continuing. -/
theorem claimC5_attribute_error :
    ∀ (model ollama_model ollama_url corrections_config : String)
      (lp help silent az_flag azure_init : Bool) (probe : Option (List String)),
      load_enhancer_llm
        (parse_arguments model lp help silent true ollama_model ollama_url
          az_flag corrections_config) probe azure_init
        = .error "AttributeError: Namespace object has no attribute ollama_base_url" := by
  intro model om ou cc lp hl si az ai probe
  rfl

/-- Concrete instance of claim C5 at the default argument values. -/
theorem claimC5_witness :
    load_enhancer_llm
      (parse_arguments "turbo" false false false true "gemma3:12b"
        "http://localhost:11434" false "corrections.json") none false
      = .error "AttributeError: Namespace object has no attribute ollama_base_url" :=
  claimC5_attribute_error "turbo" "gemma3:12b" "http://localhost:11434"
    "corrections.json" false false false false false none

/-- Claim C3, counterexample: on an enhancer with no backend available,
enhance raises RuntimeError instead of returning the original input text;
this is exactly the state for_ollama builds before the availability probe. -/
theorem claimC3_counterexample :
    LLMEnhancer.enhance
      (LLMEnhancer.for_ollama "gemma3:12b" "http://localhost:11434")
      .fail .fail "hello"
      = .error "RuntimeError: No LLM client available for enhancement."
    ∧ LLMEnhancer.enhance
      (LLMEnhancer.for_ollama "gemma3:12b" "http://localhost:11434")
      .fail .fail "hello" ≠ .ok "hello" := by
  refine ⟨rfl, ?_⟩
  intro h
  simp [LLMEnhancer.enhance, LLMEnhancer.for_ollama] at h

/-- Claim C3 (amended): when a backend is available, enhance never raises, and
every failure of that backend, a failed call, an empty response, or a
response at least three times the input length, returns the original input
unchanged; when no backend is available, enhance raises RuntimeError. -/
theorem claimC3_amended :
    (∀ (e : LLMEnhancer) (az ol : CallOutcome) (t : String),
        (e.azure_available && e.azure_client) = true ∨ e.ollama_available = true →
        ∃ r, e.enhance az ol t = .ok r)
    ∧ (∀ (e : LLMEnhancer) (t : String), e.enhance_azure_openai .fail t = t)
    ∧ (∀ (e : LLMEnhancer) (t : String), e.enhance_ollama .fail t = t)
    ∧ (∀ (e : LLMEnhancer) (t r : String), pyStrip r = "" →
        e.enhance_ollama (.ok r) t = t)
    ∧ (∀ (e : LLMEnhancer) (t r : String), t.length * 3 ≤ (pyStrip r).length →
        e.enhance_ollama (.ok r) t = t)
    ∧ (∀ (e : LLMEnhancer) (t r : String), t.length * 3 ≤ r.length →
        e.enhance_azure_openai (.ok r) t = t)
    ∧ (∀ (e : LLMEnhancer) (t : String), e.enhance_azure_openai (.ok "") t = t)
    ∧ (∀ (e : LLMEnhancer) (az ol : CallOutcome) (t : String),
        ¬(e.azure_available && e.azure_client) = true →
        ¬e.ollama_available = true →
        e.enhance az ol t
          = .error "RuntimeError: No LLM client available for enhancement.") := by
  refine ⟨?_, ?_, ?_, ?_, ?_, ?_, ?_, ?_⟩
  · intro e az ol t h
    by_cases haz : (e.azure_available && e.azure_client) = true
    · refine ⟨e.enhance_azure_openai az t, ?_⟩
      unfold LLMEnhancer.enhance
      rw [if_pos haz]
    · have holl : e.ollama_available = true := h.resolve_left haz
      refine ⟨e.enhance_ollama ol t, ?_⟩
      unfold LLMEnhancer.enhance
      rw [if_neg haz, if_pos holl]
  · intro e t
    unfold LLMEnhancer.enhance_azure_openai
    split <;> rfl
  · intro e t
    unfold LLMEnhancer.enhance_ollama
    split <;> rfl
  · intro e t r h
    unfold LLMEnhancer.enhance_ollama
    split
    · dsimp only
      rw [if_neg]
      rintro ⟨hne, -⟩
      exact hne h
    · rfl
  · intro e t r h
    unfold LLMEnhancer.enhance_ollama
    split
    · dsimp only
      rw [if_neg]
      rintro ⟨-, hlt⟩
      omega
    · rfl
  · intro e t r h
    unfold LLMEnhancer.enhance_azure_openai
    split
    · dsimp only
      rw [if_neg]
      rintro ⟨-, hlt⟩
      omega
    · rfl
  · intro e t
    unfold LLMEnhancer.enhance_azure_openai
    split
    · dsimp only
      rw [if_neg]
      rintro ⟨hne, -⟩
      exact hne rfl
    · rfl
  · intro e az ol t haz holl
    unfold LLMEnhancer.enhance
    rw [if_neg haz, if_neg holl]

/-- Concrete instance of claim C3: with the Ollama backend available, enhance
does not raise. -/
theorem claimC3_witness :
    ∃ r, eOllamaDemo.enhance .fail .fail "hello" = .ok r :=
  claimC3_amended.1 eOllamaDemo .fail .fail "hello" (Or.inr (by decide))

/-- Claim C6: an enhanced result is accepted only when its length is strictly
below three times the input length, otherwise the original input is returned,
on both backends; for a length-10 input, a length-29 response is accepted and
a length-30 response is rejected. -/
theorem claimC6_sanity_guard :
    (∀ (e : LLMEnhancer) (r t : String), t.length * 3 ≤ (pyStrip r).length →
        e.enhance_ollama (.ok r) t = t)
    ∧ (∀ (e : LLMEnhancer) (r t : String), t.length * 3 ≤ r.length →
        e.enhance_azure_openai (.ok r) t = t)
    ∧ (∀ (e : LLMEnhancer) (r t : String), pyStrip r = r → r ≠ "" →
        r.length < t.length * 3 → e.ollama_available = true →
        e.enhance_ollama (.ok r) t = r)
    ∧ eOllamaDemo.enhance_ollama (.ok r29) t10 = r29
    ∧ eOllamaDemo.enhance_ollama (.ok r30) t10 = t10
    ∧ eAzureDemo.enhance_azure_openai (.ok r29) t10 = r29
    ∧ eAzureDemo.enhance_azure_openai (.ok r30) t10 = t10
    ∧ t10.length = 10 ∧ r29.length = 29 ∧ r30.length = 30 := by
  refine ⟨?_, ?_, ?_, by decide, by decide, by decide, by decide,
    by decide, by decide, by decide⟩
  · intro e r t h
    unfold LLMEnhancer.enhance_ollama
    split
    · dsimp only
      rw [if_neg]
      rintro ⟨-, hlt⟩
      omega
    · rfl
  · intro e r t h
    unfold LLMEnhancer.enhance_azure_openai
    split
    · dsimp only
      rw [if_neg]
      rintro ⟨-, hlt⟩
      omega
    · rfl
  · intro e r t hstrip hne hlt hav
    unfold LLMEnhancer.enhance_ollama
    rw [if_pos hav]
    dsimp only
    rw [hstrip, if_pos ⟨hne, hlt⟩]

/-- Concrete instance of claim C6: the length-30 response is rejected for the
length-10 input. -/
theorem claimC6_witness : eOllamaDemo.enhance_ollama (.ok r30) t10 = t10 :=
  claimC6_sanity_guard.1 eOllamaDemo r30 t10 (by decide)

/-- Claim C7, counterexample: the corrections table with the single entry
Hello to hi has no overlapping keys, yet applying correct twice to the input
hello yields Hi while applying it once yields Hello: the capitalization of
the first letter creates a fresh whole-word match of the key. -/
theorem claimC7_counterexample :
    List.Pairwise (fun p q : String × String => p.1 ≠ q.1) [("Hello", "hi")]
    ∧ post_process_transcription [("Hello", "hi")] noGrammar "hello" = some "Hello"
    ∧ post_process_transcription [("Hello", "hi")] noGrammar "Hello" = some "Hi"
    ∧ (some "Hello" : Option String) ≠ some "Hi" := by
  refine ⟨by simp, by decide, by decide, by decide⟩

/-- Claim C7 (amended): correct, on the substitution-plus-capitalization path,
is idempotent whenever the output of the first application is unchanged by
stripping and by a second substitution pass; without those conditions
idempotence fails even for a table with no overlapping keys. -/
theorem claimC7_amended (tbl : List (String × String)) (text out : String)
    (hout : post_process_transcription tbl noGrammar text = some out)
    (hstrip : pyStrip out = out)
    (hfix : applyCorrections tbl out = out) :
    post_process_transcription tbl noGrammar out = some out := by
  rw [post_process_noGrammar] at hout ⊢
  by_cases h : pyStrip text = ""
  · rw [if_pos h] at hout
    obtain rfl : ("" : String) = out := Option.some.inj hout
    rw [if_pos hstrip]
  · rw [if_neg h] at hout
    unfold capFirst at hout
    cases hlist : (applyCorrections tbl (pyStrip text)).toList with
    | nil =>
      rw [hlist] at hout
      exact absurd hout (by simp)
    | cons c cs =>
      rw [hlist] at hout
      have hoeq : String.mk (c.toUpper :: cs) = out := Option.some.inj hout
      have hne : pyStrip out ≠ "" := by
        rw [hstrip]
        intro hh
        rw [← hoeq] at hh
        have hdata := congrArg String.toList hh
        simp [String.toList] at hdata
      rw [if_neg hne, hstrip, hfix, ← hoeq]
      unfold capFirst
      show some (String.mk (c.toUpper.toUpper :: cs)) = some (String.mk (c.toUpper :: cs))
      rw [char_toUpper_idem]

/-- Concrete instance of claim C7: one application fixes teh to the and
capitalizes; its output is a fixed point of a second application. -/
theorem claimC7_witness :
    post_process_transcription [("teh", "the")] noGrammar "The cat" = some "The cat" :=
  claimC7_amended [("teh", "the")] "teh cat" "The cat" (by decide) (by decide)
    (by decide)

/-- Claim C8: corrections keys are replaced only at word-boundary-delimited
occurrences: a text in which the key matches nowhere as a whole word is left
unchanged by the substitution, and with the table Christy to Christie, the
input with the standalone occurrence and the prefix inside Christyson
corrects only the standalone one. -/
theorem claimC8_whole_word :
    (∀ (k v text : String),
        (∀ i, i < text.toList.length → matchAt k.toList text.toList i = false) →
        reSubWholeWord k v text = text)
    ∧ reSubWholeWord "Christy" "Christie" "Christy Christyson"
        = "Christie Christyson"
    ∧ post_process_transcription [("Christy", "Christie")] noGrammar
        "Christy Christyson" = some "Christie Christyson" := by
  refine ⟨reSubWholeWord_eq_of_no_match, by decide, by decide⟩

/-- Concrete instance of claim C8: Christyson alone, where the key occurs only
as a proper prefix, is left unchanged. -/
theorem claimC8_witness :
    reSubWholeWord "Christy" "Christie" "Christyson" = "Christyson" :=
  claimC8_whole_word.1 "Christy" "Christie" "Christyson" (by decide)

/-- Claim C2: events are processed to completion one at a time (serialized by
the keyboard callback dispatch and the state lock), each processed event
performs at most one transcription call, and a toggle press processed in the
Transcribing state changes nothing and makes no calls at all, so no second
pipeline execution can ever overlap a running one. -/
theorem claimC2_single_pipeline :
    (∀ (env : Env) (a : App) (e : Event),
        ((step env a e).2.count Action.transcribeCall) ≤ 1)
    ∧ (∀ (env : Env) (a : App), a.state = .transcribing →
        step env a .toggle = (a, [])) := by
  constructor
  · intro env a e
    cases e with
    | chunk s => simp [step]
    | cancel => cases h : a.state <;> simp [step, h, cancel_recording]
    | toggle =>
      cases h : a.state with
      | idle =>
        simp only [step, h]
        unfold start_recording_app
        dsimp only
        rw [List.count_append]
        rw [count_transcribe_showTrace]
        decide
      | transcribing => simp [step, h]
      | recording =>
        simp only [step, h]
        unfold stop_recording_and_transcribe
        dsimp only
        rw [List.count_append]
        have hp := count_transcribe_process env
          { a with state := .transcribing, recorder := a.recorder.stop_recording }
        have h0 : (List.count Action.transcribeCall
            [Action.setState .transcribing, Action.stopRec]) = 0 := by decide
        omega
  · intro env a h
    simp [step, h]

/-- Concrete instance of claim C2: a toggle press in the Transcribing state is
a complete no-op. -/
theorem claimC2_witness :
    step envOk { init_app with state := .transcribing } .toggle
      = ({ init_app with state := .transcribing }, []) :=
  claimC2_single_pipeline.2 envOk { init_app with state := .transcribing } rfl

/-- The application state after a press-press cycle with an empty buffer: back
to idle, buffer cleared-and-empty, recorder disarmed, overlay hidden but with
the recording mode still recorded. -/
def appAfterEmptyCycle : App :=
  { state := .idle
    recorder :=
      { samplerate := 16000, channels := 1, audio_buffer := [], recording := false }
    overlay := { is_showing := false, current_mode := some "recording" } }

/-- Claim C4: the pipeline short-circuits back to Idle with the overlay hidden
and no text injection when the sample buffer is empty (no enhancement, no
correction either), when the transcription text is empty (same), and when the
post-corrected text is empty; and the concrete two-press run with an empty
buffer traverses Idle, Recording, Transcribing, Idle, visible as the setState
actions of its trace, which contains no enhancement, correction or injection
call. -/
theorem claimC4_short_circuits :
    (∀ (env : Env) (a : App), a.state = .recording →
        a.recorder.audio_buffer = [] →
        (step env a .toggle).1.state = .idle
        ∧ (step env a .toggle).1.overlay.is_showing = false
        ∧ Action.enhanceCall ∉ (step env a .toggle).2
        ∧ Action.postProcessCall ∉ (step env a .toggle).2
        ∧ (∀ s, Action.typeText s ∉ (step env a .toggle).2)
        ∧ Action.overlayHide ∈ (step env a .toggle).2)
    ∧ (∀ (env : Env) (a : App) (mono : List ℚ) (dur : ℚ), a.state = .recording →
        a.recorder.process_audio_buffer = some (mono, dur) →
        transcribe_audio (env.transcriber mono) = .ok "" →
        (step env a .toggle).1.state = .idle
        ∧ (step env a .toggle).1.overlay.is_showing = false
        ∧ Action.enhanceCall ∉ (step env a .toggle).2
        ∧ Action.postProcessCall ∉ (step env a .toggle).2
        ∧ (∀ s, Action.typeText s ∉ (step env a .toggle).2)
        ∧ Action.overlayHide ∈ (step env a .toggle).2)
    ∧ (∀ (env : Env) (a : App) (t : String),
        post_process_transcription env.corrections env.grammar t = some "" →
        (pipeline_post_enhance env a t).1.state = .idle
        ∧ (pipeline_post_enhance env a t).1.overlay.is_showing = false
        ∧ (∀ s, Action.typeText s ∉ (pipeline_post_enhance env a t).2)
        ∧ Action.overlayHide ∈ (pipeline_post_enhance env a t).2)
    ∧ run envOk init_app [.toggle, .toggle]
        = (appAfterEmptyCycle,
           [.setState .recording, .startRec, .showCall "recording",
            .overlayDisplays "recording", .setState .transcribing, .stopRec,
            .showCall "transcribing", .overlayHide, .setState .idle]) := by
  refine ⟨?_, ?_, ?_, by decide⟩
  · intro env a hst hbuf
    have hnone : (a.recorder.stop_recording).process_audio_buffer = none := by
      unfold AudioRecorder.stop_recording AudioRecorder.process_audio_buffer
      dsimp only
      rw [hbuf]
    simp only [step, hst]
    unfold stop_recording_and_transcribe process_transcription
    dsimp only
    rw [hnone]
    dsimp only
    refine ⟨rfl, rfl, ?_, ?_, ?_, ?_⟩
    · unfold showTrace Overlay.showTakesEffect
      split <;> simp
    · unfold showTrace Overlay.showTakesEffect
      split <;> simp
    · intro s
      unfold showTrace Overlay.showTakesEffect
      split <;> simp
    · unfold showTrace Overlay.showTakesEffect
      split <;> simp
  · intro env a mono dur hst hb htr
    have hsome : (a.recorder.stop_recording).process_audio_buffer
        = some (mono, dur) := by
      rw [process_audio_buffer_stop]
      exact hb
    simp only [step, hst]
    unfold stop_recording_and_transcribe process_transcription
    dsimp only
    rw [hsome]
    dsimp only
    rw [htr]
    unfold pipeline_after_transcribe
    dsimp only
    rw [if_pos rfl]
    dsimp only
    refine ⟨rfl, rfl, ?_, ?_, ?_, ?_⟩
    · unfold showTrace Overlay.showTakesEffect
      split <;> simp
    · unfold showTrace Overlay.showTakesEffect
      split <;> simp
    · intro s
      unfold showTrace Overlay.showTakesEffect
      split <;> simp
    · unfold showTrace Overlay.showTakesEffect
      split <;> simp
  · intro env a t hpp
    unfold pipeline_post_enhance
    rw [hpp]
    dsimp only
    rw [if_pos rfl]
    refine ⟨rfl, rfl, ?_, ?_⟩
    · intro s
      cases h : env.log_performance <;> simp [h]
    · cases h : env.log_performance <;> simp [h]

/-- Concrete instance of claim C4: post-processing a blank text short-circuits
the pipeline tail to Idle. -/
theorem claimC4_witness :
    (pipeline_post_enhance envOk init_app "  ").1.state = .idle :=
  (claimC4_short_circuits.2.2.1 envOk init_app "  " (by decide)).1

/-- Claim C1: a transcription failure (device out-of-memory or any other
exception) propagates out of the handler with the state left at Transcribing,
not Idle: the cycle is aborted but the machine never returns to Idle, every
later toggle press is ignored, and no new recording can be started, contrary
to the claim. -/
theorem claimC1_error_leaves_transcribing :
    (run envOomDemo init_app [.toggle, .chunk [100], .toggle]).1.state
      = .transcribing
    ∧ Action.uncaught ∈ (run envOomDemo init_app [.toggle, .chunk [100], .toggle]).2
    ∧ run envOomDemo init_app [.toggle, .chunk [100], .toggle, .toggle]
        = run envOomDemo init_app [.toggle, .chunk [100], .toggle]
    ∧ step envOomDemo
        (run envOomDemo init_app [.toggle, .chunk [100], .toggle]).1 .toggle
        = ((run envOomDemo init_app [.toggle, .chunk [100], .toggle]).1, [])
    ∧ (run envErrDemo init_app [.toggle, .chunk [100], .toggle]).1.state
      = .transcribing := by
  refine ⟨by decide, by decide, by decide, by decide, by decide⟩

/-- Claim C9: on the Recording to Transcribing transition the overlay show
method is called with the transcribing mode, but the overlay is still showing
the recording indicator from the recording phase, so the call returns without
effect: the transcribing indicator is never displayed and the overlay mode
stays recording for the whole pipeline, contrary to the claim. -/
theorem claimC9_transcribing_indicator_never_shown :
    Action.showCall "transcribing"
      ∈ (run envOk init_app [.toggle, .chunk [100], .toggle]).2
    ∧ Action.overlayDisplays "transcribing"
      ∉ (run envOk init_app [.toggle, .chunk [100], .toggle]).2
    ∧ Action.overlayDisplays "recording"
      ∈ (run envOk init_app [.toggle, .chunk [100], .toggle]).2
    ∧ (run envOk init_app [.toggle, .chunk [100], .toggle]).1.overlay.current_mode
      = some "recording" := by
  refine ⟨by decide, by decide, by decide, by decide⟩

end TyniWispr
